import Mathlib

/-!
Verification development for the AudioDeepfakeDetectionAgent repository.

The development shallowly embeds, from the Python sources:
* the orchestration engine of `src/main.py` (`FeedbackUserProxyAgent.generate_reply`,
  the five `tool_*` wrapper functions and the static step/parameter tables),
* the layered intent classifier `recognize_user_intent` and the path extractor
  `extract_audio_path_from_text` of `src/main.py`,
* the suspicious-segment aggregation `extract_suspicious_segments` of
  `src/anti_spoof_detector.py` (real arithmetic modelled with `ℚ`, Python
  `round(x, 3)` modelled as exact round-half-even at three decimals),
* the anomaly flagging of `src/reference_tool.py`
  (`analyze_feature_anomaly` / `generate_reference_report`).

External collaborators (ffmpeg conversion, model inference, file I/O) are inputs
to the embedding: a dispatched collaborator call is represented by the
`CollabOutcome` it produces, either a parsed result record or a raised
exception.  Parameter *values* flow only into the collaborator call and are
therefore absorbed into that outcome; parameter *names* are kept because the
engine validates them.
-/

namespace AudioAgent

/-- A tool result record as stored into `global_tool_results` by the tool
wrappers in `src/main.py`.  Each Python record carries further tool-specific
payload fields (`audio_filename`, `suspicious_segments`, …) that no claim
inspects; only the shared `success`/`error` fields are modelled. -/
structure ToolResult where
  success : Bool
  error : String
deriving DecidableEq, Repr

/-- Outcome of the synchronous collaborator call made inside a tool wrapper:
either the parsed result record (its `success` flag and `error` field, via
`dict.get` with defaults as in the source), or a raised exception carrying
`str(e)` and, for the report tool which also embeds `traceback.format_exc()`,
the traceback text. -/
inductive CollabOutcome where
  | ok (success : Bool) (error : String)
  | exc (msg : String) (tb : String)
deriving DecidableEq, Repr

/-- `True` when the produced tool result signals failure: a returned record
with `success=false`, or an exception (always converted to `success=false`). -/
def CollabOutcome.failed : CollabOutcome → Bool
  | .ok s _ => !s
  | .exc _ _ => true

/-- Python dict update `d[k] = v` on the insertion-ordered dict
`global_tool_results`, modelled on an association list: replace in place if the
key exists, else append. -/
def dictInsert (k : String) (v : ToolResult) :
    List (String × ToolResult) → List (String × ToolResult)
  | [] => [(k, v)]
  | (k', v') :: rest =>
    if k' = k then (k, v) :: rest else (k', v') :: dictInsert k v rest

/-- Python dict lookup `d.get(k)` on the association list. -/
def dictLookup (k : String) : List (String × ToolResult) → Option ToolResult
  | [] => none
  | (k', v') :: rest => if k' = k then some v' else dictLookup k rest

/-- The guarded append `if name not in tool_executed: tool_executed.append(name)`
used by the step-1..4 tool wrappers. -/
def appendIfAbsent (x : String) (l : List String) : List String :=
  if x ∈ l then l else l ++ [x]

/-- The process-wide mutable engine state of `src/main.py`
(`current_step`, `global_tool_results`, `tool_executed`), reset to
`⟨1, [], []⟩` at the start of each detection request. -/
structure PipelineState where
  current_step : Nat
  global_tool_results : List (String × ToolResult)
  tool_executed : List String
deriving DecidableEq, Repr

/-- `STEP_TO_TOOL` of `src/main.py`: the required tool for each step 1-5. -/
def STEP_TO_TOOL : Nat → Option String
  | 1 => some "tool_convert_audio"
  | 2 => some "tool_anti_spoof_detection"
  | 3 => some "tool_asr_speaker_diarization"
  | 4 => some "tool_extract_features"
  | 5 => some "tool_generate_reference_report"
  | _ => none

/-- `list(STEP_TO_TOOL.values())`, the tool-name universe the engine accepts. -/
def TOOL_NAMES : List String :=
  ["tool_convert_audio", "tool_anti_spoof_detection", "tool_asr_speaker_diarization",
   "tool_extract_features", "tool_generate_reference_report"]

/-- `TOOL_REQUIRED_PARAMS` of `src/main.py`; `.get(tool, [])` yields `[]` for
unknown tools. -/
def TOOL_REQUIRED_PARAMS : String → List String
  | "tool_convert_audio" => ["audio_path"]
  | "tool_anti_spoof_detection" => ["standard_audio_path"]
  | "tool_asr_speaker_diarization" => ["standard_audio_path"]
  | "tool_extract_features" => ["audio_filename"]
  | "tool_generate_reference_report" => ["audio_filename"]
  | _ => []

/-- Step-1 wrapper `tool_convert_audio` of `src/main.py` (lines 317-340).
On a returned collaborator record: store the result, append the tool name to
`tool_executed` if absent, and set `current_step` to 2 on success, 1 on
failure.  On a collaborator exception: store a failed result whose error is
`"转换失败: " + str(e)`, set `current_step` to 1, and leave `tool_executed`
untouched (the `except` branch has no append). -/
def tool_convert_audio (out : CollabOutcome) (st : PipelineState) :
    PipelineState × ToolResult :=
  match out with
  | .ok succ err =>
    let result : ToolResult := { success := succ, error := err }
    ({ current_step := if succ then 2 else 1,
       global_tool_results := dictInsert "tool_convert_audio" result st.global_tool_results,
       tool_executed := appendIfAbsent "tool_convert_audio" st.tool_executed }, result)
  | .exc m _ =>
    let result : ToolResult := { success := false, error := "转换失败: " ++ m }
    ({ current_step := 1,
       global_tool_results := dictInsert "tool_convert_audio" result st.global_tool_results,
       tool_executed := st.tool_executed }, result)

/-- Step-2 wrapper `tool_anti_spoof_detection` of `src/main.py` (lines 343-370);
`current_step` becomes 3 on success, 2 on failure or exception (error prefix
`"检测失败: "`).  The extra `anti_spoof_suspicious_segments` payload entry is
not modelled. -/
def tool_anti_spoof_detection (out : CollabOutcome) (st : PipelineState) :
    PipelineState × ToolResult :=
  match out with
  | .ok succ err =>
    let result : ToolResult := { success := succ, error := err }
    ({ current_step := if succ then 3 else 2,
       global_tool_results := dictInsert "tool_anti_spoof_detection" result st.global_tool_results,
       tool_executed := appendIfAbsent "tool_anti_spoof_detection" st.tool_executed }, result)
  | .exc m _ =>
    let result : ToolResult := { success := false, error := "检测失败: " ++ m }
    ({ current_step := 2,
       global_tool_results := dictInsert "tool_anti_spoof_detection" result st.global_tool_results,
       tool_executed := st.tool_executed }, result)

/-- Step-3 wrapper `tool_asr_speaker_diarization` of `src/main.py`
(lines 373-396); `current_step` becomes 4 on success, 3 on failure or
exception (error prefix `"ASR失败: "`). -/
def tool_asr_speaker_diarization (out : CollabOutcome) (st : PipelineState) :
    PipelineState × ToolResult :=
  match out with
  | .ok succ err =>
    let result : ToolResult := { success := succ, error := err }
    ({ current_step := if succ then 4 else 3,
       global_tool_results := dictInsert "tool_asr_speaker_diarization" result st.global_tool_results,
       tool_executed := appendIfAbsent "tool_asr_speaker_diarization" st.tool_executed }, result)
  | .exc m _ =>
    let result : ToolResult := { success := false, error := "ASR失败: " ++ m }
    ({ current_step := 3,
       global_tool_results := dictInsert "tool_asr_speaker_diarization" result st.global_tool_results,
       tool_executed := st.tool_executed }, result)

/-- Step-4 wrapper `tool_extract_features` of `src/main.py` (lines 399-424);
`current_step` becomes 5 on success, 4 on failure or exception (error prefix
`"特征提取失败: "`). -/
def tool_extract_features (out : CollabOutcome) (st : PipelineState) :
    PipelineState × ToolResult :=
  match out with
  | .ok succ err =>
    let result : ToolResult := { success := succ, error := err }
    ({ current_step := if succ then 5 else 4,
       global_tool_results := dictInsert "tool_extract_features" result st.global_tool_results,
       tool_executed := appendIfAbsent "tool_extract_features" st.tool_executed }, result)
  | .exc m _ =>
    let result : ToolResult := { success := false, error := "特征提取失败: " ++ m }
    ({ current_step := 4,
       global_tool_results := dictInsert "tool_extract_features" result st.global_tool_results,
       tool_executed := st.tool_executed }, result)

/-- Step-5 wrapper `tool_generate_reference_report` of `src/main.py`
(lines 426-469).  Unlike the other wrappers, both branches append the tool
name to `tool_executed` *unconditionally* (no membership guard) and both set
`current_step := 6` regardless of success.  The exception branch stores the
error `"Reference工具调用异常：" + str(e) + "\n" + traceback.format_exc()`. -/
def tool_generate_reference_report (out : CollabOutcome) (st : PipelineState) :
    PipelineState × ToolResult :=
  match out with
  | .ok succ err =>
    let result : ToolResult := { success := succ, error := err }
    ({ current_step := 6,
       global_tool_results := dictInsert "tool_generate_reference_report" result st.global_tool_results,
       tool_executed := st.tool_executed ++ ["tool_generate_reference_report"] }, result)
  | .exc m tb =>
    let result : ToolResult :=
      { success := false, error := "Reference工具调用异常：" ++ m ++ "\n" ++ tb }
    ({ current_step := 6,
       global_tool_results := dictInsert "tool_generate_reference_report" result st.global_tool_results,
       tool_executed := st.tool_executed ++ ["tool_generate_reference_report"] }, result)

/-- The `tool_functions[tool_name](...)` dispatch table inside
`FeedbackUserProxyAgent.generate_reply` (lines 528-544).  The final fallback
mirrors the dead `else` branch producing `{"success": False, "error": "未知工具"}`
without touching the state. -/
def dispatch (name : String) (out : CollabOutcome) (st : PipelineState) :
    PipelineState × ToolResult :=
  if name = "tool_convert_audio" then tool_convert_audio out st
  else if name = "tool_anti_spoof_detection" then tool_anti_spoof_detection out st
  else if name = "tool_asr_speaker_diarization" then tool_asr_speaker_diarization out st
  else if name = "tool_extract_features" then tool_extract_features out st
  else if name = "tool_generate_reference_report" then tool_generate_reference_report out st
  else (st, { success := false, error := "未知工具" })

/-- A tool-call request `{"name": ..., "parameters": {...}}` as extracted by
`FeedbackUserProxyAgent._extract_function_call`.  Only parameter *names* are
kept: the engine checks key presence, and the values flow into the
collaborator call abstracted by `CollabOutcome`. -/
structure FuncCall where
  name : String
  parameters : List String
deriving DecidableEq, Repr

/-- The latest agent message as seen by `generate_reply`: whether its stripped
content is nonempty, whether it contains the termination marker `"流程结束"`,
and the result of `_extract_function_call` on it (regex/JSON parsing itself is
external to the embedding). -/
structure AgentMessage where
  nonempty : Bool
  has_end_marker : Bool
  func_call : Option FuncCall
deriving DecidableEq, Repr

/-- The reply of `generate_reply`, structured by which format string (or
`None`) the Python code returns:
* `stop` — Python `None` (terminates the AutoGen loop);
* `all_complete` — `"所有工具执行完成，可生成最终报告"`;
* `format_error` — `"错误：必须输出工具调用JSON，当前步骤 {step} 应调用工具 {expected}"`;
* `unknown_tool_error` — `"错误：未知工具 {name}，仅允许调用 {list}"`;
* `param_error` — `"参数错误：工具 {name} 缺少必填参数 {missing}，正确参数为 {required}"`;
* `step_mismatch_error` — `"步骤错误：当前步骤 {step} 必须调用 {expected}，不能调用 {name}"`;
* `feedback_complete` — the `next_step == 6` feedback block (`"执行成功 … 即将生成最终检测报告"`);
* `feedback` — the detailed feedback block with the tool result, the
  `current_step → next_step` line, `tool_executed` and the next tool. -/
inductive Reply where
  | stop
  | all_complete
  | format_error (step : Nat) (expected_tool : String)
  | unknown_tool_error (tool_name : String)
  | param_error (tool_name : String) (missing required : List String)
  | step_mismatch_error (step : Nat) (expected_tool tool_name : String)
  | feedback_complete (tool_name : String)
  | feedback (tool_name : String) (result : ToolResult) (from_step to_step : Nat)
      (executed : List String) (next_tool : String)
deriving DecidableEq, Repr

/-- `_check_params` of `src/main.py` (lines 484-489), reduced to the list of
missing required parameter names (`[p for p in required_params if p not in params]`);
Python returns an error string exactly when this list is nonempty. -/
def check_params (tool_name : String) (params : List String) : List String :=
  (TOOL_REQUIRED_PARAMS tool_name).filter (fun p => !(params.contains p))

/-- `FeedbackUserProxyAgent.generate_reply` of `src/main.py` (lines 491-576),
as a function of the current engine state, the latest agent message and the
outcome the collaborator would produce if dispatched.  Faithful points:
* the terminal checks (`current_step == 6` with/without the marker) come first;
* an empty message returns `None` before any parsing;
* guard order: parse failure, unknown tool, missing parameters, step mismatch;
* the post-dispatch bookkeeping reads `current_step` *after* the tool wrapper
  has already mutated it (the source's `tool_result_dict` logic verbatim). -/
def generate_reply (st : PipelineState) (msg : AgentMessage) (out : CollabOutcome) :
    PipelineState × Reply :=
  if st.current_step = 6 ∧ msg.has_end_marker = true then (st, .stop)
  else if st.current_step = 6 then (st, .all_complete)
  else if msg.nonempty = false then (st, .stop)
  else
    match msg.func_call with
    | none => (st, .format_error st.current_step ((STEP_TO_TOOL st.current_step).getD ""))
    | some fc =>
      if fc.name ∉ TOOL_NAMES then (st, .unknown_tool_error fc.name)
      else
        let missing := check_params fc.name fc.parameters
        if missing ≠ [] then
          (st, .param_error fc.name missing (TOOL_REQUIRED_PARAMS fc.name))
        else
          let expected := (STEP_TO_TOOL st.current_step).getD ""
          if fc.name ≠ expected then
            (st, .step_mismatch_error st.current_step expected fc.name)
          else
            let stres := dispatch fc.name out st
            let st' := stres.1
            let result := stres.2
            let next_step :=
              if st'.current_step = 5 ∧ result.success = true then 6
              else if result.success = true then st'.current_step + 1
              else st'.current_step
            if next_step = 6 then
              ({ st' with current_step := 6 }, .feedback_complete fc.name)
            else
              (st', .feedback fc.name result st'.current_step next_step st'.tool_executed
                ((STEP_TO_TOOL next_step).getD "生成最终检测报告"))

/-! ## Intent classifier and path extractor (`src/main.py`, lines 94-164)

Python string primitives are modelled at the character-list level:
`str.strip()` as dropping whitespace at both ends, `str.lower()` as mapping
`Char.toLower` (the Python patterns are ASCII or Chinese, where the two
lowering functions agree), and `re.search` of a literal pattern as substring
containment. -/

/-- `str.strip()`: remove leading and trailing whitespace. -/
def stripChars (l : List Char) : List Char :=
  ((l.dropWhile Char.isWhitespace).reverse.dropWhile Char.isWhitespace).reverse

/-- `str.lower()` for the ASCII/Chinese alphabets used by the patterns. -/
def toLowerList (s : String) : List Char :=
  s.toList.map Char.toLower

/-- `re.search(pat, hay)` for a literal pattern: does `pat` occur as a
contiguous substring of `hay`? -/
def containsSub (pat : List Char) : List Char → Bool
  | [] => pat.isEmpty
  | c :: rest => pat.isPrefixOf (c :: rest) || containsSub pat rest

/-- The character class `[^:;"'<>|?*\n]` of the audio-path regex, negated:
`true` exactly on the excluded characters (the two quote characters are
written by code point). -/
def isExcludedPathChar (c : Char) : Bool :=
  c = ':' || c = ';' || c.toNat = 34 || c.toNat = 39 || c = '<' || c = '>' ||
  c = '|' || c = '?' || c = '*' || c = '\n'

/-- The accepted audio extensions `(flac|wav|mp3|wma)` in the regex's
alternation order. -/
def AUDIO_EXTS : List String := ["flac", "wav", "mp3", "wma"]

/-- Case-insensitive "starts with" used for the extension alternation
(`re.IGNORECASE`); the stored patterns are lowercase. -/
def startsWithCI (l : List Char) (pat : String) : Bool :=
  ((l.take pat.toList.length).map Char.toLower) = pat.toList

/-- Match `\.(flac|wav|mp3|wma)` (case-insensitively) at the head of the list,
returning the matched characters in their original case. -/
def extMatch : List Char → Option (List Char)
  | [] => none
  | c :: rest =>
    if c = '.' then
      match AUDIO_EXTS.find? (fun ext => startsWithCI rest ext) with
      | some ext => some (c :: rest.take ext.toList.length)
      | none => none
    else none

/-- The lazy body `[^:;"'<>|?*\n]+?` followed by the extension: consume one
admissible character at a time (at least one) and, after each, first try the
extension — the regex engine's shortest-match (`+?`) strategy.  `acc` is the
body consumed so far; the result is the whole matched tail `acc ++ body ++ ext`. -/
def matchBodyLazy (acc : List Char) : List Char → Option (List Char)
  | [] => none
  | c :: rest =>
    if isExcludedPathChar c then none
    else
      match extMatch rest with
      | some ext => some (acc ++ [c] ++ ext)
      | none => matchBodyLazy (acc ++ [c]) rest

/-- Match the full pattern `[A-Za-z]:[\\/][^:;"'<>|?*\n]+?\.(flac|wav|mp3|wma)`
anchored at the head of the list. -/
def driveMatchAt : List Char → Option (List Char)
  | a :: b :: c :: rest =>
    if a.isAlpha ∧ b = ':' ∧ (c = '\\' ∨ c = '/') then
      match matchBodyLazy [] rest with
      | some m => some (a :: b :: c :: m)
      | none => none
    else none
  | _ => none

/-- `re.search`: try the anchored pattern at every start position, leftmost
first. -/
def scanPath : List Char → Option (List Char)
  | [] => none
  | c :: rest =>
    match driveMatchAt (c :: rest) with
    | some m => some m
    | none => scanPath rest

/-- `extract_audio_path_from_text` of `src/main.py` (lines 99-104): the first
regex match, or `none` where Python returns `""`.  Python post-processes a
found match with `normalize_path` (quote stripping plus `os.path.abspath` /
`normpath`, a filesystem-configuration-dependent canonicalisation that is not
modelled); that step never turns a found match into the empty string, so
emptiness of the Python result coincides with `none` here. -/
def extract_audio_path_from_text (text : String) : Option String :=
  (scanPath text.toList).map fun l => String.mk l

/-- The classified intent, carrying the data the Python dict returns
(`audio_path` for detection, the matched knowledge-base key for a
professional question; the canned reply texts are not modelled). -/
inductive Intent where
  | quit
  | detection (audio_path : String)
  | invalid_detection
  | professional_question (keyword : String)
  | greeting
  | chat
deriving DecidableEq, Repr

/-- `quit_patterns` of `recognize_user_intent`. -/
def quit_patterns : List String := ["exit", "quit", "退出", "结束", "拜拜"]

/-- The keys of `PROFESSIONAL_KNOWLEDGE`, in dict insertion order. -/
def knowledge_keys : List String :=
  ["mfcc", "异常值判定", "梅尔能量", "音频伪造检测流程", "风险等级"]

/-- `greeting_patterns` of `recognize_user_intent`. -/
def greeting_patterns : List String :=
  ["你好", "哈喽", "hi", "hello", "嗨", "早上好", "下午好", "晚上好"]

/-- Case-insensitive pattern search `re.search(p, input, re.IGNORECASE)` on the
stripped input, for the lowercase/Chinese pattern lists above. -/
def searchCI (p : String) (strippedLower : List Char) : Bool :=
  containsSub p.toList strippedLower

/-- `recognize_user_intent` of `src/main.py` (lines 107-164): the layered
classifier.  Layer order as in the source: quit patterns (case-insensitive),
audio-path extraction, the literal `"检测"` keyword, knowledge-base keys
(searched in the lowered input), greeting patterns (case-insensitive), chat
fallback.  The Python function normalizes a detection path with
`normalize_path`; the raw regex match is carried instead (see
`extract_audio_path_from_text`). -/
def recognize_user_intent (user_input : String) : Intent :=
  let stripped := stripChars user_input.toList
  let lower := stripped.map Char.toLower
  if quit_patterns.any (fun p => searchCI p lower) then .quit
  else
    match extract_audio_path_from_text (String.mk stripped) with
    | some p => .detection p
    | none =>
      if containsSub "检测".toList stripped then .invalid_detection
      else
        match knowledge_keys.find? (fun k => containsSub k.toList lower) with
        | some k => .professional_question k
        | none =>
          if greeting_patterns.any (fun p => searchCI p lower) then .greeting
          else .chat

/-! ## Suspicious-segment aggregation (`src/anti_spoof_detector.py`)

Real arithmetic is modelled with `ℚ` (every Python float is a rational and
float comparison agrees with the rational order on the represented values);
Python's `round(x, 3)` is banker's rounding at three decimals, modelled
exactly by `roundHalfEven`. -/

/-- Round-half-even to an integer, Python's `round` on exact values. -/
def roundHalfEven (q : ℚ) : ℤ :=
  if q - ⌊q⌋ < 1/2 then ⌊q⌋
  else if 1/2 < q - ⌊q⌋ then ⌊q⌋ + 1
  else if Even ⌊q⌋ then ⌊q⌋ else ⌊q⌋ + 1

/-- Python `round(x, 3)`: round-half-even at three decimal places. -/
def pyRound3 (q : ℚ) : ℚ :=
  (roundHalfEven (q * 1000) : ℚ) / 1000

/-- `HOP_SIZE` of `src/anti_spoof_detector.py` (0.1 seconds). -/
def HOP_SIZE : ℚ := 1/10

/-- A suspicious time interval `{"start": ..., "end": ...}` as appended by
`extract_suspicious_segments` (`stop` models the Python key `"end"`, a Lean
keyword). -/
structure SuspiciousSegment where
  start : ℚ
  stop : ℚ
deriving DecidableEq, Repr

/-- The loop body and final flush of `extract_suspicious_segments`
(`src/anti_spoof_detector.py`, lines 111-134).  `cur` packages Python's
`start_time`/`end_time` pair (both are assigned together whenever
`start_time` is not `None`); `lastT` is `time_stamps[-1]`, which the final
flush uses instead of the tracked `end_time` (Python indexes the full
timestamp list; the default value of `getLastD` is unreachable because the
final flush requires a consumed element). -/
def espLoop (threshold lastT : ℚ) :
    List (ℚ × ℚ) → List SuspiciousSegment → Option (ℚ × ℚ) → List SuspiciousSegment
  | [], segs, none => segs
  | [], segs, some (s, _) => segs ++ [⟨pyRound3 s, pyRound3 (lastT + HOP_SIZE)⟩]
  | (score, t) :: rest, segs, cur =>
    if threshold ≤ score then
      match cur with
      | none => espLoop threshold lastT rest segs (some (t, t + HOP_SIZE))
      | some (s, _) => espLoop threshold lastT rest segs (some (s, t + HOP_SIZE))
    else
      match cur with
      | none => espLoop threshold lastT rest segs none
      | some (s, e) => espLoop threshold lastT rest (segs ++ [⟨pyRound3 s, pyRound3 e⟩]) none

/-- `extract_suspicious_segments` of `src/anti_spoof_detector.py`: iterate the
score/timestamp pairs (`zip` truncates to the shorter list, as in Python) and
aggregate maximal runs with `score >= threshold` into segments. -/
def extract_suspicious_segments (fake_scores time_stamps : List ℚ) (threshold : ℚ) :
    List SuspiciousSegment :=
  espLoop threshold (time_stamps.getLastD 0) (fake_scores.zip time_stamps) [] none

/-! ## Anomaly flagging (`src/reference_tool.py`) -/

/-- `ANOMALY_THRESHOLDS["mfcc_mean_abs"]` (= 0.5). -/
def mfcc_mean_abs_threshold : ℚ := 1/2

/-- `ANOMALY_THRESHOLDS["mfcc_std_upper"]` (= 35.0141). -/
def mfcc_std_upper : ℚ := 350141/10000

/-- `ANOMALY_THRESHOLDS["mel_energy_upper"]` (= -43.5002). -/
def mel_energy_upper : ℚ := -435002/10000

/-- `ANOMALY_THRESHOLDS["mel_energy_lower"]` (= -65.9447). -/
def mel_energy_lower : ℚ := -659447/10000

/-- The `mfcc_stats` record of a `FeatureRecord` (`mean`, `std`). -/
structure MfccStats where
  mean : ℚ
  std : ℚ
deriving DecidableEq, Repr

/-- The `mfcc_feature` field of a segment feature record. -/
structure MfccFeature where
  success : Bool
  mfcc_stats : MfccStats
deriving DecidableEq, Repr

/-- The `mel_feature` field of a segment feature record (only the
`mel_energy_stats["mean"]` value is consulted by the analysed code). -/
structure MelFeature where
  success : Bool
  mel_energy_mean : ℚ
deriving DecidableEq, Repr

/-- A per-segment feature record as read from
`suspicious_features_summary.json`. -/
structure SegmentFeature where
  segment_id : ℕ
  mfcc_feature : MfccFeature
  mel_feature : MelFeature
deriving DecidableEq, Repr

/-- The two entries `analyze_feature_anomaly` can append to its
`mfcc_analysis` list (`src/reference_tool.py`, lines 168-174):
`mean_abnormal` renders as `"MFCC均值绝对值(...)超出正常范围（≤0.5）"` and
`std_abnormal` as the standard-deviation line. -/
inductive MfccFinding where
  | mean_abnormal
  | std_abnormal
deriving DecidableEq, Repr

/-- The `mfcc_analysis` list built by `analyze_feature_anomaly` for a segment:
empty when MFCC extraction failed; otherwise the mean flag
(`abs(mean) > 0.5`, strict) followed by the std flag (`std > 35.0141`). -/
def analyze_mfcc_findings (mf : MfccFeature) : List MfccFinding :=
  if mf.success then
    (if |mf.mfcc_stats.mean| > mfcc_mean_abs_threshold then [MfccFinding.mean_abnormal] else []) ++
    (if mf.mfcc_stats.std > mfcc_std_upper then [MfccFinding.std_abnormal] else [])
  else []

/-- The `anomaly_details` entries `generate_reference_report` appends during
its overall risk assessment (`src/reference_tool.py`, lines 265-284):
`"片段{id}MFCC均值异常"`, `"片段{id}MFCC标准差异常"`, `"片段{id}梅尔能量异常"`. -/
inductive AnomalyDetail where
  | mfcc_mean (segment_id : ℕ)
  | mfcc_std (segment_id : ℕ)
  | mel_energy (segment_id : ℕ)
deriving DecidableEq, Repr

/-- The risk-assessment entries contributed by one segment in
`generate_reference_report`'s loop, in append order. -/
def segment_anomaly_details (sf : SegmentFeature) : List AnomalyDetail :=
  (if sf.mfcc_feature.success then
    (if |sf.mfcc_feature.mfcc_stats.mean| > mfcc_mean_abs_threshold then
      [AnomalyDetail.mfcc_mean sf.segment_id] else []) ++
    (if sf.mfcc_feature.mfcc_stats.std > mfcc_std_upper then
      [AnomalyDetail.mfcc_std sf.segment_id] else [])
   else []) ++
  (if sf.mel_feature.success then
    (if sf.mel_feature.mel_energy_mean > mel_energy_upper ∨
        sf.mel_feature.mel_energy_mean < mel_energy_lower then
      [AnomalyDetail.mel_energy sf.segment_id] else [])
   else [])

/-- The full `anomaly_details` list over all segment records;
`has_anomaly` in the source is exactly its nonemptiness. -/
def report_anomaly_details (segs : List SegmentFeature) : List AnomalyDetail :=
  (segs.map segment_anomaly_details).flatten

/-! ## Helper lemmas -/

theorem dictLookup_dictInsert_self (k : String) (v : ToolResult)
    (d : List (String × ToolResult)) :
    dictLookup k (dictInsert k v d) = some v := by
  induction d with
  | nil => simp [dictInsert, dictLookup]
  | cons hd tl ih =>
    obtain ⟨k', v'⟩ := hd
    by_cases h : k' = k <;> simp [dictInsert, dictLookup, h, ih]

theorem strToListAppend (s t : String) : (s ++ t).toList = s.toList ++ t.toList := rfl

end AudioAgent

namespace AudioAgent

/-! ## Claims about the orchestration engine -/

/-- C1 (counterexample): a failed dispatch at step 5 does *not* leave
`current_step` at 5 — `tool_generate_reference_report` sets `current_step := 6`
in both its branches, so after a failing report dispatch the state is
terminal, not retryable. -/
theorem claim_C1_counterexample :
    (generate_reply ⟨5, [], []⟩
        ⟨true, false, some ⟨"tool_generate_reference_report", ["audio_filename"]⟩⟩
        (.ok false "report failed")).1.current_step = 6 := by decide

/-- C1 (amended): a failed tool dispatch (failed collaborator record or
collaborator exception) at a step n in 1-4 leaves `current_step` at n and
stores a `success=false` record under the tool's name; a failed dispatch at
step 5 also stores the failure record but advances `current_step` to 6. -/
theorem claim_C1 :
    (∀ (st : PipelineState) (msg : AgentMessage) (out : CollabOutcome)
        (n : ℕ) (name : String) (ps : List String),
      1 ≤ n → n ≤ 4 → st.current_step = n →
      msg.nonempty = true → msg.func_call = some ⟨name, ps⟩ →
      STEP_TO_TOOL n = some name → check_params name ps = [] →
      out.failed = true →
      (generate_reply st msg out).1.current_step = n ∧
      ∃ r, dictLookup name (generate_reply st msg out).1.global_tool_results = some r ∧
        r.success = false) ∧
    (∀ (st : PipelineState) (msg : AgentMessage) (out : CollabOutcome) (ps : List String),
      st.current_step = 5 → msg.nonempty = true →
      msg.func_call = some ⟨"tool_generate_reference_report", ps⟩ →
      check_params "tool_generate_reference_report" ps = [] →
      out.failed = true →
      (generate_reply st msg out).1.current_step = 6 ∧
      ∃ r, dictLookup "tool_generate_reference_report"
          (generate_reply st msg out).1.global_tool_results = some r ∧
        r.success = false) := by
  constructor
  · intro st msg out n name ps h1 h4 hstep hne hfc hname hcp hfail
    interval_cases n <;>
      (simp only [STEP_TO_TOOL, Option.some.injEq] at hname; subst hname;
       simp [check_params, TOOL_REQUIRED_PARAMS] at hcp;
       rcases out with ⟨s, e⟩ | ⟨m, tb⟩ <;>
         [(simp only [CollabOutcome.failed, Bool.not_eq_true'] at hfail; subst hfail);
          skip] <;>
       simp [generate_reply, hstep, hne, hfc, hcp, check_params, TOOL_NAMES, STEP_TO_TOOL,
         TOOL_REQUIRED_PARAMS, dispatch, tool_convert_audio, tool_anti_spoof_detection,
         tool_asr_speaker_diarization, tool_extract_features,
         tool_generate_reference_report, dictLookup_dictInsert_self])
  · intro st msg out ps hstep hne hfc hcp hfail
    simp [check_params, TOOL_REQUIRED_PARAMS] at hcp
    rcases out with ⟨s, e⟩ | ⟨m, tb⟩ <;>
      [(simp only [CollabOutcome.failed, Bool.not_eq_true'] at hfail; subst hfail);
       skip] <;>
    simp [generate_reply, hstep, hne, hfc, hcp, check_params, TOOL_NAMES, STEP_TO_TOOL,
      TOOL_REQUIRED_PARAMS, dispatch, tool_generate_reference_report, dictLookup_dictInsert_self]

/-- C1 (witness): the amended theorem applied at step 2 with a failing
anti-spoof collaborator record. -/
theorem claim_C1_witness :
    (generate_reply ⟨2, [], []⟩
        ⟨true, false, some ⟨"tool_anti_spoof_detection", ["standard_audio_path"]⟩⟩
        (.ok false "model error")).1.current_step = 2 ∧
    ∃ r, dictLookup "tool_anti_spoof_detection"
        (generate_reply ⟨2, [], []⟩
          ⟨true, false, some ⟨"tool_anti_spoof_detection", ["standard_audio_path"]⟩⟩
          (.ok false "model error")).1.global_tool_results = some r ∧
      r.success = false :=
  claim_C1.1 ⟨2, [], []⟩
    ⟨true, false, some ⟨"tool_anti_spoof_detection", ["standard_audio_path"]⟩⟩
    (.ok false "model error") 2 "tool_anti_spoof_detection" ["standard_audio_path"]
    (by decide) (by decide) rfl rfl rfl (by decide) (by decide) (by decide)

/-- C2 (counterexample): a *successful* dispatch at step 4 advances
`current_step` to 6, not 5 — the post-dispatch bookkeeping in `generate_reply`
tests `current_step == 5` after `tool_extract_features` has already set it to
5, so the `next_step = 6` branch fires and step 5 is skipped. -/
theorem claim_C2_counterexample :
    (generate_reply ⟨4, [], []⟩
        ⟨true, false, some ⟨"tool_extract_features", ["audio_filename"]⟩⟩
        (.ok true "")).1.current_step = 6 := by decide

/-- C2 (amended): a successful dispatch at step n advances `current_step` to
n+1 for n in 1-3; a successful dispatch at step 4 advances directly to 6
(the reply handler re-reads the already-advanced step and treats it as a
completed step 5); a successful dispatch at step 5 also ends at 6. -/
theorem claim_C2 :
    (∀ (st : PipelineState) (msg : AgentMessage) (n : ℕ) (name : String)
        (ps : List String) (err : String),
      (n = 1 ∨ n = 2 ∨ n = 3) → st.current_step = n →
      msg.nonempty = true → msg.func_call = some ⟨name, ps⟩ →
      STEP_TO_TOOL n = some name → check_params name ps = [] →
      (generate_reply st msg (.ok true err)).1.current_step = n + 1) ∧
    (∀ (st : PipelineState) (msg : AgentMessage) (ps : List String) (err : String),
      st.current_step = 4 → msg.nonempty = true →
      msg.func_call = some ⟨"tool_extract_features", ps⟩ →
      check_params "tool_extract_features" ps = [] →
      (generate_reply st msg (.ok true err)).1.current_step = 6) ∧
    (∀ (st : PipelineState) (msg : AgentMessage) (ps : List String) (err : String),
      st.current_step = 5 → msg.nonempty = true →
      msg.func_call = some ⟨"tool_generate_reference_report", ps⟩ →
      check_params "tool_generate_reference_report" ps = [] →
      (generate_reply st msg (.ok true err)).1.current_step = 6) := by
  refine ⟨?_, ?_, ?_⟩
  · intro st msg n name ps err hn hstep hne hfc hname hcp
    rcases hn with rfl | rfl | rfl <;>
      (simp only [STEP_TO_TOOL, Option.some.injEq] at hname; subst hname;
       simp [check_params, TOOL_REQUIRED_PARAMS] at hcp;
       simp [generate_reply, hstep, hne, hfc, hcp, check_params, TOOL_NAMES, STEP_TO_TOOL,
         TOOL_REQUIRED_PARAMS, dispatch, tool_convert_audio, tool_anti_spoof_detection,
         tool_asr_speaker_diarization])
  · intro st msg ps err hstep hne hfc hcp
    simp [check_params, TOOL_REQUIRED_PARAMS] at hcp
    simp [generate_reply, hstep, hne, hfc, hcp, check_params, TOOL_NAMES, STEP_TO_TOOL,
      TOOL_REQUIRED_PARAMS, dispatch, tool_extract_features]
  · intro st msg ps err hstep hne hfc hcp
    simp [check_params, TOOL_REQUIRED_PARAMS] at hcp
    simp [generate_reply, hstep, hne, hfc, hcp, check_params, TOOL_NAMES, STEP_TO_TOOL,
      TOOL_REQUIRED_PARAMS, dispatch, tool_generate_reference_report]

/-- C2 (witness): the amended theorem applied at step 1 with a successful
conversion. -/
theorem claim_C2_witness :
    (generate_reply ⟨1, [], []⟩
        ⟨true, false, some ⟨"tool_convert_audio", ["audio_path"]⟩⟩
        (.ok true "")).1.current_step = 1 + 1 :=
  claim_C2.1 ⟨1, [], []⟩ ⟨true, false, some ⟨"tool_convert_audio", ["audio_path"]⟩⟩
    1 "tool_convert_audio" ["audio_path"] "" (by decide) rfl rfl rfl (by decide) (by decide)

/-- C3 (counterexample): an agent message whose stripped content is empty is
answered with `None` (the stop signal), not with the parse-failure error the
claim requires for every message failing the parse guard — the
`if not last_message: return None` check precedes the guard chain. -/
theorem claim_C3_counterexample :
    (generate_reply ⟨1, [], []⟩ ⟨false, false, none⟩ (.ok true "")).2 = Reply.stop := by
  decide

/-- C3 (amended): for every agent message with *nonempty* stripped content
processed at a step in 1-5, the guards run in the order parse-failure,
unknown-tool, missing-parameters, step-mismatch; the first failing guard
produces its error reply (the parameter error naming exactly the missing
required names, the mismatch error naming the expected tool), the state is
returned unchanged, and the result does not depend on the collaborator
(no dispatch happens). -/
theorem claim_C3 (st : PipelineState) (msg : AgentMessage) (out : CollabOutcome)
    (h1 : 1 ≤ st.current_step) (h5 : st.current_step ≤ 5) (hne : msg.nonempty = true) :
    (msg.func_call = none →
      generate_reply st msg out =
        (st, .format_error st.current_step ((STEP_TO_TOOL st.current_step).getD ""))) ∧
    (∀ name ps, msg.func_call = some ⟨name, ps⟩ → name ∉ TOOL_NAMES →
      generate_reply st msg out = (st, .unknown_tool_error name)) ∧
    (∀ name ps, msg.func_call = some ⟨name, ps⟩ → name ∈ TOOL_NAMES →
      check_params name ps ≠ [] →
      generate_reply st msg out =
        (st, .param_error name (check_params name ps) (TOOL_REQUIRED_PARAMS name))) ∧
    (∀ name ps, msg.func_call = some ⟨name, ps⟩ → name ∈ TOOL_NAMES →
      check_params name ps = [] → name ≠ (STEP_TO_TOOL st.current_step).getD "" →
      generate_reply st msg out =
        (st, .step_mismatch_error st.current_step
          ((STEP_TO_TOOL st.current_step).getD "") name)) := by
  have h6 : ¬ st.current_step = 6 := by omega
  refine ⟨?_, ?_, ?_, ?_⟩
  · intro hfc
    simp [generate_reply, h6, hne, hfc]
  · intro name ps hfc hunk
    simp [generate_reply, h6, hne, hfc, hunk]
  · intro name ps hfc hmem hmiss
    rw [Ne, ← List.isEmpty_iff, Bool.not_eq_true] at hmiss
    simp [generate_reply, h6, hne, hfc, hmem, check_params] at hmiss ⊢
    simp [hmiss]
  · intro name ps hfc hmem hcp hneq
    have hcp' : ∀ x ∈ TOOL_REQUIRED_PARAMS name, x ∈ ps := by
      intro x hx
      by_contra hxps
      have hxcp : x ∈ check_params name ps := by
        simp [check_params, hx, hxps]
      simp [hcp] at hxcp
    simp [generate_reply, h6, hne, hfc, hmem, check_params, hneq, hcp']
    exact hcp'

/-- C3 (witness): the amended theorem applied to a step-mismatch request at
step 1. -/
theorem claim_C3_witness :
    generate_reply ⟨1, [], []⟩
        ⟨true, false, some ⟨"tool_extract_features", ["audio_filename"]⟩⟩ (.ok true "") =
      (⟨1, [], []⟩, .step_mismatch_error 1 ((STEP_TO_TOOL 1).getD "") "tool_extract_features") :=
  (claim_C3 ⟨1, [], []⟩ ⟨true, false, some ⟨"tool_extract_features", ["audio_filename"]⟩⟩
    (.ok true "") (by decide) (by decide) rfl).2.2.2
    "tool_extract_features" ["audio_filename"] rfl (by decide) (by decide) (by decide)

/-- C4: once `current_step` is 6 (terminal), every incoming message leaves the
state unchanged and no tool is dispatched (the result is independent of the
collaborator outcome): the reply is the stop signal (`None`) when the message
contains the termination marker `"流程结束"`, and the fixed
`"所有工具执行完成，可生成最终报告"` message otherwise. -/
theorem claim_C4 (st : PipelineState) (msg : AgentMessage) (out : CollabOutcome)
    (h : st.current_step = 6) :
    generate_reply st msg out =
      (st, if msg.has_end_marker then Reply.stop else Reply.all_complete) := by
  obtain ⟨ne, marker, fc⟩ := msg
  cases marker <;> simp [generate_reply, h]

/-- C4 (witness): the theorem applied at the terminal state with the
termination marker present. -/
theorem claim_C4_witness :
    generate_reply ⟨6, [], []⟩ ⟨true, true, none⟩ (.ok true "") =
      (⟨6, [], []⟩, if true then Reply.stop else Reply.all_complete) :=
  claim_C4 ⟨6, [], []⟩ ⟨true, true, none⟩ (.ok true "") rfl

/-- C5 (counterexample): `executed_tools` does *not* stay duplicate-free —
`tool_generate_reference_report` appends its name unconditionally, so two
dispatches of the report tool (here: two failing ones) leave two entries. -/
theorem claim_C5_counterexample :
    (tool_generate_reference_report (.ok false "e")
        (tool_generate_reference_report (.ok false "e") ⟨5, [], []⟩).1).1.tool_executed =
      ["tool_generate_reference_report", "tool_generate_reference_report"] := by decide

/-- C5 (amended): exact characterisation of the `executed_tools` update.  For
the step-1..4 wrappers, a dispatch whose collaborator call returns a record
(successful or failed) appends the tool name only if absent (idempotent),
while a dispatch whose collaborator raises leaves `executed_tools` unchanged
(the name of a raising tool is not recorded); the step-5 report wrapper
appends its name unconditionally on every dispatch, so duplicates of that
name can accumulate. -/
theorem claim_C5 :
    (∀ (st : PipelineState) (s : Bool) (e : String),
      (tool_convert_audio (.ok s e) st).1.tool_executed =
        appendIfAbsent "tool_convert_audio" st.tool_executed ∧
      (tool_anti_spoof_detection (.ok s e) st).1.tool_executed =
        appendIfAbsent "tool_anti_spoof_detection" st.tool_executed ∧
      (tool_asr_speaker_diarization (.ok s e) st).1.tool_executed =
        appendIfAbsent "tool_asr_speaker_diarization" st.tool_executed ∧
      (tool_extract_features (.ok s e) st).1.tool_executed =
        appendIfAbsent "tool_extract_features" st.tool_executed) ∧
    (∀ (st : PipelineState) (m tb : String),
      (tool_convert_audio (.exc m tb) st).1.tool_executed = st.tool_executed ∧
      (tool_anti_spoof_detection (.exc m tb) st).1.tool_executed = st.tool_executed ∧
      (tool_asr_speaker_diarization (.exc m tb) st).1.tool_executed = st.tool_executed ∧
      (tool_extract_features (.exc m tb) st).1.tool_executed = st.tool_executed) ∧
    (∀ (st : PipelineState) (out : CollabOutcome),
      (tool_generate_reference_report out st).1.tool_executed =
        st.tool_executed ++ ["tool_generate_reference_report"]) := by
  refine ⟨?_, ?_, ?_⟩
  · intro st s e
    exact ⟨rfl, rfl, rfl, rfl⟩
  · intro st m tb
    exact ⟨rfl, rfl, rfl, rfl⟩
  · intro st out
    cases out <;> rfl

/-- C6: a collaborator exception during a dispatched tool call at any step
1-5 is absorbed at the dispatch boundary: `generate_reply` still returns a
reply (the embedding is total), and the stored tool result has
`success=false` with the exception message `str(e)` embedded in its `error`
field. -/
theorem claim_C6 (st : PipelineState) (msg : AgentMessage)
    (n : ℕ) (name : String) (ps : List String) (m tb : String)
    (h1 : 1 ≤ n) (h5 : n ≤ 5) (hstep : st.current_step = n)
    (hne : msg.nonempty = true) (hfc : msg.func_call = some ⟨name, ps⟩)
    (hname : STEP_TO_TOOL n = some name) (hcp : check_params name ps = []) :
    ∃ r, dictLookup name
        (generate_reply st msg (.exc m tb)).1.global_tool_results = some r ∧
      r.success = false ∧ ∃ p q, r.error.toList = p ++ m.toList ++ q := by
  interval_cases n
  all_goals
    (simp only [STEP_TO_TOOL, Option.some.injEq] at hname; subst hname;
     simp [check_params, TOOL_REQUIRED_PARAMS] at hcp;
     simp [generate_reply, hstep, hne, hfc, hcp, check_params, TOOL_NAMES, STEP_TO_TOOL,
       TOOL_REQUIRED_PARAMS, dispatch, tool_convert_audio, tool_anti_spoof_detection,
       tool_asr_speaker_diarization, tool_extract_features,
       tool_generate_reference_report, dictLookup_dictInsert_self, strToListAppend])
  · exact ⟨['转', '换', '失', '败', ':', ' '], [], by simp⟩
  · exact ⟨['检', '测', '失', '败', ':', ' '], [], by simp⟩
  · exact ⟨['A', 'S', 'R', '失', '败', ':', ' '], [], by simp⟩
  · exact ⟨['特', '征', '提', '取', '失', '败', ':', ' '], [], by simp⟩
  · exact ⟨['R', 'e', 'f', 'e', 'r', 'e', 'n', 'c', 'e', '工', '具', '调', '用', '异', '常', '：'],
      '\n' :: tb.toList, by simp⟩

/-- C6 (witness): the theorem applied to an exception raised by the ASR
collaborator at step 3. -/
theorem claim_C6_witness :
    ∃ r, dictLookup "tool_asr_speaker_diarization"
        (generate_reply ⟨3, [], []⟩
          ⟨true, false, some ⟨"tool_asr_speaker_diarization", ["standard_audio_path"]⟩⟩
          (.exc "whisper crashed" "tb")).1.global_tool_results = some r ∧
      r.success = false ∧
      ∃ p q, r.error.toList = p ++ "whisper crashed".toList ++ q :=
  claim_C6 ⟨3, [], []⟩
    ⟨true, false, some ⟨"tool_asr_speaker_diarization", ["standard_audio_path"]⟩⟩
    3 "tool_asr_speaker_diarization" ["standard_audio_path"] "whisper crashed" "tb"
    (by decide) (by decide) rfl rfl rfl (by decide) (by decide)

/-- C7: the intent classifier is a first-match-wins cascade in the fixed
order termination > path-extraction > malformed-detection keyword >
knowledge-base keyword > greeting keyword > chat: whenever the earlier
layers' conditions fail and a layer's condition holds, the classifier
returns that layer's intent.  Concretely, `"exit C:/sample.wav"` contains an
extractable audio path yet classifies as a termination request. -/
theorem claim_C7 :
    (∀ s : String,
      (quit_patterns.any
          (fun p => searchCI p ((stripChars s.toList).map Char.toLower)) = true →
        recognize_user_intent s = .quit) ∧
      (quit_patterns.any
          (fun p => searchCI p ((stripChars s.toList).map Char.toLower)) = false →
        ∀ m, extract_audio_path_from_text (String.mk (stripChars s.toList)) = some m →
        recognize_user_intent s = .detection m) ∧
      (quit_patterns.any
          (fun p => searchCI p ((stripChars s.toList).map Char.toLower)) = false →
        extract_audio_path_from_text (String.mk (stripChars s.toList)) = none →
        containsSub "检测".toList (stripChars s.toList) = true →
        recognize_user_intent s = .invalid_detection) ∧
      (quit_patterns.any
          (fun p => searchCI p ((stripChars s.toList).map Char.toLower)) = false →
        extract_audio_path_from_text (String.mk (stripChars s.toList)) = none →
        containsSub "检测".toList (stripChars s.toList) = false →
        ∀ k, knowledge_keys.find?
            (fun k => containsSub k.toList ((stripChars s.toList).map Char.toLower)) = some k →
        recognize_user_intent s = .professional_question k) ∧
      (quit_patterns.any
          (fun p => searchCI p ((stripChars s.toList).map Char.toLower)) = false →
        extract_audio_path_from_text (String.mk (stripChars s.toList)) = none →
        containsSub "检测".toList (stripChars s.toList) = false →
        knowledge_keys.find?
            (fun k => containsSub k.toList ((stripChars s.toList).map Char.toLower)) = none →
        greeting_patterns.any
            (fun p => searchCI p ((stripChars s.toList).map Char.toLower)) = true →
        recognize_user_intent s = .greeting) ∧
      (quit_patterns.any
          (fun p => searchCI p ((stripChars s.toList).map Char.toLower)) = false →
        extract_audio_path_from_text (String.mk (stripChars s.toList)) = none →
        containsSub "检测".toList (stripChars s.toList) = false →
        knowledge_keys.find?
            (fun k => containsSub k.toList ((stripChars s.toList).map Char.toLower)) = none →
        greeting_patterns.any
            (fun p => searchCI p ((stripChars s.toList).map Char.toLower)) = false →
        recognize_user_intent s = .chat)) ∧
    recognize_user_intent "exit C:/sample.wav" = .quit ∧
    extract_audio_path_from_text "exit C:/sample.wav" = some "C:/sample.wav" := by
  refine ⟨fun s => ⟨?_, ?_, ?_, ?_, ?_, ?_⟩, by decide, by decide⟩
  · intro hq
    simp at hq
    simp [recognize_user_intent, hq]
  · intro hq m hm
    simp at hq hm
    have hq2 : ¬ ∃ x ∈ quit_patterns,
        searchCI x (List.map Char.toLower (stripChars s.data)) = true := by simpa using hq
    simp [recognize_user_intent, hq2, hm]
  · intro hq hm hd
    simp at hq hm hd
    have hq2 : ¬ ∃ x ∈ quit_patterns,
        searchCI x (List.map Char.toLower (stripChars s.data)) = true := by simpa using hq
    simp [recognize_user_intent, hq2, hm, hd]
  · intro hq hm hd k hk
    simp at hq hm hd hk
    have hq2 : ¬ ∃ x ∈ quit_patterns,
        searchCI x (List.map Char.toLower (stripChars s.data)) = true := by simpa using hq
    simp [recognize_user_intent, hq2, hm, hd, hk]
  · intro hq hm hd hk hg
    simp at hq hm hd hk hg
    have hq2 : ¬ ∃ x ∈ quit_patterns,
        searchCI x (List.map Char.toLower (stripChars s.data)) = true := by simpa using hq
    have hk2 : List.find?
        (fun k => containsSub k.data (List.map Char.toLower (stripChars s.data)))
        knowledge_keys = none :=
      List.find?_eq_none.mpr (fun x hx => by simp [hk x hx])
    simp [recognize_user_intent, hq2, hm, hd, hk2, hg]
  · intro hq hm hd hk hg
    simp at hq hm hd hk hg
    have hq2 : ¬ ∃ x ∈ quit_patterns,
        searchCI x (List.map Char.toLower (stripChars s.data)) = true := by simpa using hq
    have hg2 : ¬ ∃ x ∈ greeting_patterns,
        searchCI x (List.map Char.toLower (stripChars s.data)) = true := by simpa using hg
    have hk2 : List.find?
        (fun k => containsSub k.data (List.map Char.toLower (stripChars s.data)))
        knowledge_keys = none :=
      List.find?_eq_none.mpr (fun x hx => by simp [hk x hx])
    simp [recognize_user_intent, hq2, hm, hd, hk2, hg2]

/-- C7 (witness): the knowledge-base layer fires for `"MFCC是什么"` after the
three higher layers fail. -/
theorem claim_C7_witness :
    recognize_user_intent "MFCC是什么" = .professional_question "mfcc" :=
  ((claim_C7.1 "MFCC是什么").2.2.2.1 (by decide) (by decide) (by decide)
    "mfcc" (by decide))

/-- C8: a segment whose MFCC extraction succeeded is flagged MFCC-mean
anomalous — in `analyze_feature_anomaly`'s per-segment analysis and in
`generate_reference_report`'s risk assessment alike — exactly when
`abs(mfcc_stats.mean)` is strictly greater than 0.5; a mean of exactly 1/2 is
not flagged while 0.5000001 is. -/
theorem claim_C8 :
    (∀ sf : SegmentFeature, sf.mfcc_feature.success = true →
      ((MfccFinding.mean_abnormal ∈ analyze_mfcc_findings sf.mfcc_feature ↔
          |sf.mfcc_feature.mfcc_stats.mean| > 1/2) ∧
       (AnomalyDetail.mfcc_mean sf.segment_id ∈ segment_anomaly_details sf ↔
          |sf.mfcc_feature.mfcc_stats.mean| > 1/2))) ∧
    MfccFinding.mean_abnormal ∉ analyze_mfcc_findings ⟨true, ⟨1/2, 0⟩⟩ ∧
    MfccFinding.mean_abnormal ∈ analyze_mfcc_findings ⟨true, ⟨5000001/10000000, 0⟩⟩ := by
  refine ⟨?_, ?_, ?_⟩
  · rintro ⟨id, ⟨msucc, ⟨mean, std⟩⟩, ⟨melsucc, melmean⟩⟩ hs
    simp only at hs
    subst hs
    constructor
    · by_cases hmean : |mean| > (1:ℚ)/2 <;> by_cases hstd : std > mfcc_std_upper <;>
        simp [analyze_mfcc_findings, mfcc_mean_abs_threshold, hmean, hstd]
    · by_cases hmean : |mean| > (1:ℚ)/2 <;> by_cases hstd : std > mfcc_std_upper <;>
      by_cases hmelsucc : melsucc = true <;>
      by_cases hmelcond : melmean > mel_energy_upper ∨ melmean < mel_energy_lower <;>
        simp [segment_anomaly_details, mfcc_mean_abs_threshold, hmean, hstd, hmelsucc, hmelcond]
  · have h : |(1:ℚ)/2| = 1/2 := abs_of_nonneg (by norm_num)
    norm_num [analyze_mfcc_findings, mfcc_mean_abs_threshold, mfcc_std_upper, h]
  · have h : |(5000001:ℚ)/10000000| = 5000001/10000000 := abs_of_nonneg (by norm_num)
    norm_num [analyze_mfcc_findings, mfcc_mean_abs_threshold, mfcc_std_upper, h]

/-- C8 (witness): the iff applied to a successfully-extracted segment with
MFCC mean 3/4. -/
theorem claim_C8_witness :
    (MfccFinding.mean_abnormal ∈
        analyze_mfcc_findings (SegmentFeature.mfcc_feature ⟨7, ⟨true, ⟨3/4, 0⟩⟩, ⟨false, 0⟩⟩) ↔
      |(SegmentFeature.mfcc_feature ⟨7, ⟨true, ⟨3/4, 0⟩⟩, ⟨false, 0⟩⟩).mfcc_stats.mean| > 1/2) ∧
    (AnomalyDetail.mfcc_mean (SegmentFeature.segment_id ⟨7, ⟨true, ⟨3/4, 0⟩⟩, ⟨false, 0⟩⟩) ∈
        segment_anomaly_details ⟨7, ⟨true, ⟨3/4, 0⟩⟩, ⟨false, 0⟩⟩ ↔
      |(SegmentFeature.mfcc_feature ⟨7, ⟨true, ⟨3/4, 0⟩⟩, ⟨false, 0⟩⟩).mfcc_stats.mean| > 1/2) :=
  claim_C8.1 ⟨7, ⟨true, ⟨3/4, 0⟩⟩, ⟨false, 0⟩⟩ rfl

/-! ## Rounding and ordering lemmas for the segment aggregation -/

theorem roundHalfEven_ge_floor (q : ℚ) : ⌊q⌋ ≤ roundHalfEven q := by
  unfold roundHalfEven
  split_ifs <;> omega

theorem roundHalfEven_le_floor_add_one (q : ℚ) : roundHalfEven q ≤ ⌊q⌋ + 1 := by
  unfold roundHalfEven
  split_ifs <;> omega

theorem roundHalfEven_mono {a b : ℚ} (h : a ≤ b) :
    roundHalfEven a ≤ roundHalfEven b := by
  have hf : ⌊a⌋ ≤ ⌊b⌋ := Int.floor_le_floor h
  rcases lt_or_eq_of_le hf with hlt | heq
  · calc roundHalfEven a ≤ ⌊a⌋ + 1 := roundHalfEven_le_floor_add_one a
      _ ≤ ⌊b⌋ := by omega
      _ ≤ roundHalfEven b := roundHalfEven_ge_floor b
  · have key : a - ⌊a⌋ ≤ b - ⌊b⌋ := by
      rw [← heq]
      have := Int.floor_le a
      linarith
    unfold roundHalfEven
    rw [← heq]
    rw [← heq] at key
    split_ifs <;> first | omega | linarith

theorem roundHalfEven_add_hundred (q : ℚ) :
    roundHalfEven (q + 100) = roundHalfEven q + 100 := by
  have hf : ⌊q + (100:ℚ)⌋ = ⌊q⌋ + 100 := by
    rw [show (100:ℚ) = ((100:ℤ):ℚ) from by norm_cast, Int.floor_add_int]
  unfold roundHalfEven
  rw [hf]
  have h2 : q + 100 - (((⌊q⌋ + 100 : ℤ)) : ℚ) = q - ⌊q⌋ := by push_cast; ring
  rw [h2]
  have h3 : Even (⌊q⌋ + 100) ↔ Even ⌊q⌋ := by
    simp [Int.even_add, (by decide : Even (100:ℤ))]
  split_ifs with h4 h5 h6 h7 <;> first | omega | (exfalso; rw [h3] at *; tauto)

theorem pyRound3_mono {a b : ℚ} (h : a ≤ b) : pyRound3 a ≤ pyRound3 b := by
  unfold pyRound3
  have h1 : a * 1000 ≤ b * 1000 := by linarith
  have h2 : (roundHalfEven (a * 1000) : ℚ) ≤ (roundHalfEven (b * 1000) : ℚ) := by
    exact_mod_cast roundHalfEven_mono h1
  linarith

theorem pyRound3_add_hop (q : ℚ) : pyRound3 (q + HOP_SIZE) = pyRound3 q + HOP_SIZE := by
  unfold pyRound3 HOP_SIZE
  have h : (q + 1/10) * 1000 = q * 1000 + 100 := by ring
  rw [h, roundHalfEven_add_hundred]
  push_cast
  ring

theorem pyRound3_lt_add_hop {a b : ℚ} (h : a ≤ b) :
    pyRound3 a < pyRound3 (b + HOP_SIZE) := by
  rw [pyRound3_add_hop]
  have h1 := pyRound3_mono h
  have h2 : (0:ℚ) < HOP_SIZE := by norm_num [HOP_SIZE]
  linarith

theorem getLastD_self_or_mem (l : List ℚ) (d : ℚ) :
    l.getLastD d = d ∨ l.getLastD d ∈ l := by
  induction l generalizing d with
  | nil => exact Or.inl rfl
  | cons a t ih =>
    rcases ih a with h | h
    · right
      rw [List.getLastD_cons, h]
      exact List.mem_cons_self a t
    · right
      rw [List.getLastD_cons]
      exact List.mem_cons_of_mem a h

theorem mem_le_getLastD {l : List ℚ} (hl : l.Pairwise (· ≤ ·)) {x : ℚ} (hx : x ∈ l)
    (d : ℚ) : x ≤ l.getLastD d := by
  induction l generalizing d with
  | nil => cases hx
  | cons a t ih =>
    rw [List.getLastD_cons]
    obtain ⟨ha, ht⟩ := List.pairwise_cons.mp hl
    rcases List.mem_cons.mp hx with rfl | hxt
    · rcases getLastD_self_or_mem t x with h | h
      · rw [h]
      · exact ha _ h
    · exact ih ht hxt a

theorem zip_snd_mem {α β : Type} {l1 : List α} {l2 : List β} {p : α × β}
    (h : p ∈ l1.zip l2) : p.2 ∈ l2 := by
  obtain ⟨x, y⟩ := p
  exact (List.of_mem_zip h).2

theorem pairwise_zip_snd {l1 l2 : List ℚ} (h : l2.Pairwise (· ≤ ·)) :
    (l1.zip l2).Pairwise (fun p q : ℚ × ℚ => p.2 ≤ q.2) := by
  induction l1 generalizing l2 with
  | nil => simp
  | cons a t ih =>
    cases l2 with
    | nil => simp
    | cons b u =>
      obtain ⟨hb, hu⟩ := List.pairwise_cons.mp h
      rw [List.zip_cons_cons, List.pairwise_cons]
      exact ⟨fun p hp => hb p.2 (zip_snd_mem hp), ih hu⟩

/-- Invariant proof for `espLoop`: with sorted remaining timestamps bounded by
`lastT`, with all already-emitted segments well-ordered, and with any open run
`(s, e)` satisfying `s ≤ t0`, `e = t0 + HOP_SIZE` for a consumed timestamp
`t0` that bounds the remaining timestamps and is at most `lastT`, every
emitted segment has `start < stop`. -/
theorem espLoop_start_lt_stop (threshold lastT : ℚ) :
    ∀ (l : List (ℚ × ℚ)) (segs : List SuspiciousSegment) (cur : Option (ℚ × ℚ)),
      l.Pairwise (fun p q : ℚ × ℚ => p.2 ≤ q.2) →
      (∀ p ∈ l, p.2 ≤ lastT) →
      (∀ seg ∈ segs, seg.start < seg.stop) →
      (∀ s e, cur = some (s, e) →
        ∃ t0, s ≤ t0 ∧ e = t0 + HOP_SIZE ∧ t0 ≤ lastT ∧ ∀ p ∈ l, t0 ≤ p.2) →
      ∀ seg ∈ espLoop threshold lastT l segs cur, seg.start < seg.stop := by
  intro l
  induction l with
  | nil =>
    intro segs cur _ _ hsegs hcur seg hseg
    cases cur with
    | none => exact hsegs seg hseg
    | some se =>
      obtain ⟨s, e⟩ := se
      obtain ⟨t0, hs, _, ht, _⟩ := hcur s e rfl
      rw [show espLoop threshold lastT [] segs (some (s, e)) =
            segs ++ [⟨pyRound3 s, pyRound3 (lastT + HOP_SIZE)⟩] from rfl] at hseg
      rcases List.mem_append.mp hseg with h | h
      · exact hsegs seg h
      · rw [List.mem_singleton] at h
        subst h
        exact pyRound3_lt_add_hop (le_trans hs ht)
  | cons hd tl ih =>
    obtain ⟨score, t⟩ := hd
    intro segs cur hpw hle hsegs hcur
    obtain ⟨hhd, hpw'⟩ := List.pairwise_cons.mp hpw
    have hle' : ∀ p ∈ tl, p.2 ≤ lastT := fun p hp => hle p (List.mem_cons_of_mem _ hp)
    have htle : t ≤ lastT := hle (score, t) (List.mem_cons_self _ _)
    by_cases hsc : threshold ≤ score
    · cases cur with
      | none =>
        rw [show espLoop threshold lastT ((score, t) :: tl) segs none =
              espLoop threshold lastT tl segs (some (t, t + HOP_SIZE)) from by
            rw [espLoop]; simp [hsc]]
        exact ih segs _ hpw' hle' hsegs
          (fun s e hse => by
            obtain ⟨rfl, rfl⟩ : t = s ∧ t + HOP_SIZE = e := by
              simpa using hse
            exact ⟨t, le_refl t, rfl, htle, fun p hp => hhd p hp⟩)
      | some se =>
        obtain ⟨s, e⟩ := se
        obtain ⟨t0, hs, _, _, hball⟩ := hcur s e rfl
        have hst : s ≤ t := le_trans hs (hball (score, t) (List.mem_cons_self _ _))
        rw [show espLoop threshold lastT ((score, t) :: tl) segs (some (s, e)) =
              espLoop threshold lastT tl segs (some (s, t + HOP_SIZE)) from by
            rw [espLoop]; simp [hsc]]
        exact ih segs _ hpw' hle' hsegs
          (fun s' e' hse => by
            obtain ⟨rfl, rfl⟩ : s = s' ∧ t + HOP_SIZE = e' := by
              simpa using hse
            exact ⟨t, hst, rfl, htle, fun p hp => hhd p hp⟩)
    · cases cur with
      | none =>
        rw [show espLoop threshold lastT ((score, t) :: tl) segs none =
              espLoop threshold lastT tl segs none from by
            rw [espLoop]; simp [hsc]]
        exact ih segs none hpw' hle' hsegs (fun s e hse => by cases hse)
      | some se =>
        obtain ⟨s, e⟩ := se
        obtain ⟨t0, hs, he, _, _⟩ := hcur s e rfl
        rw [show espLoop threshold lastT ((score, t) :: tl) segs (some (s, e)) =
              espLoop threshold lastT tl
                (segs ++ [⟨pyRound3 s, pyRound3 e⟩]) none from by
            rw [espLoop]; simp [hsc]]
        refine ih _ none hpw' hle' ?_ (fun s' e' hse => by cases hse)
        intro seg hseg
        rcases List.mem_append.mp hseg with h | h
        · exact hsegs seg h
        · rw [List.mem_singleton] at h
          subst h
          rw [he]
          exact pyRound3_lt_add_hop hs

/-- C9: for score/timestamp lists whose timestamps are non-decreasing, every
suspicious segment produced by `extract_suspicious_segments` satisfies
`start < end` (exactly as the `SuspiciousSegment` invariant demands). -/
theorem claim_C9 (fake_scores time_stamps : List ℚ) (threshold : ℚ)
    (h : time_stamps.Pairwise (· ≤ ·)) :
    ∀ seg ∈ extract_suspicious_segments fake_scores time_stamps threshold,
      seg.start < seg.stop := by
  unfold extract_suspicious_segments
  refine espLoop_start_lt_stop threshold _ _ [] none (pairwise_zip_snd h) ?_ ?_ ?_
  · intro p hp
    exact mem_le_getLastD h (zip_snd_mem hp) 0
  · intro seg hseg
    cases hseg
  · intro s e hse
    cases hse

/-- C9 (witness): the theorem applied to two above-threshold windows at
timestamps 0 and 1. -/
theorem claim_C9_witness :
    List.Pairwise (· ≤ ·) ([0, 1] : List ℚ) ∧
    ∀ seg ∈ extract_suspicious_segments [1, 1] [0, 1] 0, seg.start < seg.stop :=
  ⟨by decide, claim_C9 [1, 1] [0, 1] 0 (by decide)⟩

/-! ## Soundness of the audio-path matcher (claim C10) -/

/-- A matched extension block: a dot followed (case-insensitively) by one of
the accepted audio extensions. -/
def isDotExt (e : List Char) : Prop :=
  ∃ ext ∈ AUDIO_EXTS, e.map Char.toLower = '.' :: ext.toList

theorem extMatch_sound {l m : List Char} (h : extMatch l = some m) :
    ∃ rest, l = m ++ rest ∧ isDotExt m := by
  cases l with
  | nil => simp [extMatch] at h
  | cons c cs =>
    rw [extMatch] at h
    split_ifs at h with hc
    cases hfind : AUDIO_EXTS.find? (fun ext => startsWithCI cs ext) with
    | none => rw [hfind] at h; cases h
    | some ext =>
      rw [hfind] at h
      obtain rfl : c :: cs.take ext.toList.length = m := by simpa using h
      subst hc
      refine ⟨cs.drop ext.toList.length, by simp, ext,
        List.mem_of_find?_eq_some hfind, ?_⟩
      have hsw := List.find?_some hfind
      simp only [startsWithCI, decide_eq_true_eq] at hsw
      rw [List.map_cons, hsw, (show Char.toLower ('.' : Char) = '.' from by decide)]

theorem matchBodyLazy_sound :
    ∀ (l acc m : List Char), matchBodyLazy acc l = some m →
      ∃ b e rest, m = acc ++ b ++ e ∧ l = b ++ e ++ rest ∧ b ≠ [] ∧
        (∀ c ∈ b, isExcludedPathChar c = false) ∧ isDotExt e := by
  intro l
  induction l with
  | nil =>
    intro acc m h
    simp [matchBodyLazy] at h
  | cons c cs ih =>
    intro acc m h
    rw [matchBodyLazy] at h
    split_ifs at h with hc
    cases hext : extMatch cs with
    | some e =>
      rw [hext] at h
      obtain rfl : acc ++ [c] ++ e = m := by simpa using h
      obtain ⟨rest, hcs, hde⟩ := extMatch_sound hext
      refine ⟨[c], e, rest, by simp, by simp [hcs], by simp, ?_, hde⟩
      intro x hx
      rw [List.mem_singleton] at hx
      subst hx
      simpa using hc
    | none =>
      rw [hext] at h
      obtain ⟨b, e, rest, hm, hcs, hb, hall, hde⟩ := ih (acc ++ [c]) m h
      refine ⟨c :: b, e, rest, by rw [hm]; simp, by rw [hcs]; rfl, by simp, ?_, hde⟩
      intro x hx
      rcases List.mem_cons.mp hx with rfl | hxb
      · simpa using hc
      · exact hall x hxb

theorem driveMatchAt_sound {l m : List Char} (h : driveMatchAt l = some m) :
    ∃ (a sl : Char) (b e rest : List Char),
      l = a :: ':' :: sl :: (b ++ e ++ rest) ∧ a.isAlpha = true ∧
      (sl = '\\' ∨ sl = '/') ∧ b ≠ [] ∧
      (∀ c ∈ b, isExcludedPathChar c = false) ∧ isDotExt e := by
  cases l with
  | nil => simp [driveMatchAt] at h
  | cons a l1 =>
    cases l1 with
    | nil => simp [driveMatchAt] at h
    | cons b l2 =>
      cases l2 with
      | nil => simp [driveMatchAt] at h
      | cons c rest =>
        rw [driveMatchAt] at h
        split_ifs at h with hcond
        obtain ⟨ha, hb, hc⟩ := hcond
        cases hmb : matchBodyLazy [] rest with
        | none => rw [hmb] at h; cases h
        | some mb =>
          rw [hmb] at h
          obtain rfl : a :: b :: c :: mb = m := by simpa using h
          obtain ⟨bd, e, rst, hm, hrest, hbd, hall, hde⟩ :=
            matchBodyLazy_sound rest [] mb hmb
          subst hb
          exact ⟨a, c, bd, e, rst, by rw [hrest], ha, hc, hbd, hall, hde⟩

theorem scanPath_sound :
    ∀ (l m : List Char), scanPath l = some m →
      ∃ pre suf, l = pre ++ suf ∧ driveMatchAt suf = some m := by
  intro l
  induction l with
  | nil =>
    intro m h
    simp [scanPath] at h
  | cons c rest ih =>
    intro m h
    rw [scanPath] at h
    cases hd : driveMatchAt (c :: rest) with
    | some m' =>
      rw [hd] at h
      obtain rfl : m' = m := by simpa using h
      exact ⟨[], c :: rest, rfl, hd⟩
    | none =>
      rw [hd] at h
      obtain ⟨pre, suf, hl, hdm⟩ := ih m h
      exact ⟨c :: pre, suf, by rw [hl]; rfl, hdm⟩

/-- The claim-side description of a Windows drive-letter audio path occurring
inside a string: a drive letter, a colon, a slash or backslash, a nonempty
body of characters admissible in the regex's character class, and a dot plus
one of the four audio extensions (case-insensitive). -/
def ContainsWindowsAudioPath (s : String) : Prop :=
  ∃ (pre : List Char) (d sl : Char) (body dotext post : List Char),
    s.toList = pre ++ d :: ':' :: sl :: (body ++ dotext ++ post) ∧
    d.isAlpha = true ∧ (sl = '\\' ∨ sl = '/') ∧ body ≠ [] ∧
    (∀ c ∈ body, isExcludedPathChar c = false) ∧ isDotExt dotext

/-- C10: the path extractor finds something only if the input actually
contains a Windows drive-letter-prefixed audio path (equivalently, an input
with no such path yields the empty extraction); in particular the POSIX path
`"/tmp/in.flac"` is not extracted and an utterance consisting only of it
falls through to the chat intent, not detection. -/
theorem claim_C10 :
    (∀ s : String, extract_audio_path_from_text s = none ∨ ContainsWindowsAudioPath s) ∧
    extract_audio_path_from_text "/tmp/in.flac" = none ∧
    recognize_user_intent "/tmp/in.flac" = Intent.chat := by
  refine ⟨?_, by decide, by decide⟩
  intro s
  cases hscan : scanPath s.toList with
  | none =>
    left
    unfold extract_audio_path_from_text
    rw [hscan]
    rfl
  | some m =>
    right
    obtain ⟨pre, suf, hl, hdm⟩ := scanPath_sound _ _ hscan
    obtain ⟨a, sl, b, e, rest, hsuf, ha, hsl, hb, hall, hde⟩ := driveMatchAt_sound hdm
    exact ⟨pre, a, sl, b, e, rest, by rw [hl, hsuf], ha, hsl, hb, hall, hde⟩

end AudioAgent
